import Mathlib

/-!
Verification development for the django-safe-migrations analyzer core.

This file gives a shallow embedding of the data model and operations of
the package (src/django_safe_migrations): the rule checks of
rules/add_field.py, rules/alter_field.py and rules/graph.py, the
configuration resolution of conf.py, the baseline matching of
baseline.py, and the orchestration of analyzer.py, together with
theorems about them.

Conventions of the embedding:
* Python dictionaries used only for membership and lookup are modelled
  as association lists; Python sets used only for membership are
  modelled as lists (membership-equivalent).
* Optional attributes read with getattr(x, a, default) are modelled as
  Option fields, with none meaning the attribute is absent.
* File system and Django-loader effects are passed explicitly: the
  advisory source-location lookups of utils.py become an Env record of
  functions, and the Django MigrationLoader becomes a Loader record.
-/

namespace DSM

/-- An apostrophe character, used inside message strings. -/
def sq : String := String.singleton (Char.ofNat 39)

/-- Severity levels of rules/base.py (values error, warning, info). -/
inductive Severity where
  | error
  | warning
  | info
deriving DecidableEq, Repr

/-- Modelled from the spec: rules/base.py is not under src/. The Issue
record carries rule id, severity, operation signature, message,
optional remediation text, scope, changeset name and source location,
exactly the keyword arguments of the Issue constructor call in
rules/graph.py and the fields read by analyzer.py and baseline.py. -/
structure Issue where
  rule_id : String
  severity : Severity
  operation : String
  message : String
  suggestion : Option String
  app_label : Option String
  migration_name : Option String
  file_path : Option String
  line_number : Option Nat
deriving DecidableEq, Repr

/-- A Django model field as the rules read it: the class name, the
null, default, db_default, primary_key, unique, max_length and
db_constraint attributes. Option encodes an absent attribute
(db_constraint only exists on relation fields; max_length only on
bounded text types; a none default stands for the NOT_PROVIDED
sentinel). -/
structure Field where
  typeName : String
  null : Bool
  defaultVal : Option String
  dbDefault : Option String
  primaryKey : Bool
  unique : Bool
  maxLength : Option Nat
  dbConstraint : Option Bool
deriving DecidableEq, Repr

/-- Migration operations, a tagged union over the Django operation
classes that the modelled rules inspect, with a catch-all arm. -/
inductive Operation where
  | addField (modelName fieldName : String) (field : Field)
  | alterField (modelName fieldName : String) (field : Field)
  | removeField (modelName fieldName : String)
  | renameField (modelName oldName newName : String)
  | renameModel (oldName newName : String)
  | otherOp (tag : String)
deriving DecidableEq, Repr

/-- A migration as analyzer.py reads it: optional app_label and name
attributes, the operations list, and the replaces list of squash
migrations. -/
structure Migration where
  app_label : Option String
  name : Option String
  operations : List Operation
  dependencies : List (String × String)
  replaces : List (String × String)
deriving DecidableEq, Repr

/-- utils.format_operation_name: the operation class name, with
model_name and name appended when those attributes exist. -/
def format_operation_name : Operation → String
  | .addField m n _ => "AddField(" ++ m ++ "." ++ n ++ ")"
  | .alterField m n _ => "AlterField(" ++ m ++ "." ++ n ++ ")"
  | .removeField m n => "RemoveField(" ++ m ++ "." ++ n ++ ")"
  | .renameField m _ _ => "RenameField(" ++ m ++ ")"
  | .renameModel _ _ => "RenameModel"
  | .otherOp tag => tag

/-- Modelled from the spec: base.create_issue of the absent
rules/base.py. It builds an Issue tagged with the rule id and default
severity of the rule and the given message; per spec section 4.1 all
enrichment (location, scope, name) is applied by the Analyzer, not the
rule, so the scope and location fields start unset. The rule id and
severity of issues returned by rule checks are confirmed by
tests/unit/rules. -/
def create_issue (ruleId : String) (sev : Severity) (op : Operation)
    (message : String) : Issue :=
  { rule_id := ruleId
    severity := sev
    operation := format_operation_name op
    message := message
    suggestion := none
    app_label := none
    migration_name := none
    file_path := none
    line_number := none }

/-- A rule object: stable id, default severity, optional vendor
allow-list (none when the class does not declare db_vendors), and the
check function. The Option Field argument is the old_field entry of
the kwargs passed to check (none when the caller supplies none). -/
structure Rule where
  ruleId : String
  severity : Severity
  dbVendors : Option (List String)
  check : Operation → Migration → Option Field → Option Issue

/-- Modelled from the spec: base.applies_to_db of the absent
rules/base.py. Per spec section 4.1 a rule with a non-empty vendor
allow-list is skipped entirely for non-matching vendors; a rule
without one applies to every vendor. Confirmed by the vendor filtering
test in tests/unit/test_analyzer.py. -/
def Rule.applies_to_db (r : Rule) (vendor : String) : Bool :=
  match r.dbVendors with
  | none => true
  | some vs => vs.contains vendor

/-- rules/add_field.py NotNullWithoutDefaultRule.check (SM001): flags
AddField of a NOT NULL field with no Python default, no database
default, that is not a primary key or auto field and is not a relation
declaring db_constraint=False. -/
def NotNullWithoutDefaultRule.checkFn (operation : Operation)
    (_migration : Migration) (_old : Option Field) : Option Issue :=
  match operation with
  | .addField model_name field_name field =>
    let is_not_null := !field.null
    let has_default := field.defaultVal.isSome || field.dbDefault.isSome
    let is_auto := field.primaryKey ||
      ["AutoField", "BigAutoField", "SmallAutoField"].contains field.typeName
    let is_relation_no_constraint := field.dbConstraint == some false
    if is_not_null && !has_default && !is_auto && !is_relation_no_constraint then
      some (create_issue "SM001" .error operation
        ("Adding NOT NULL field " ++ sq ++ field_name ++ sq ++ " to " ++ sq
          ++ model_name ++ sq ++ " without a default value will lock the table"))
    else
      none
  | _ => none

/-- The SM001 rule object (no db_vendors attribute: all vendors). -/
def NotNullWithoutDefaultRule : Rule :=
  { ruleId := "SM001"
    severity := .error
    dbVendors := none
    check := NotNullWithoutDefaultRule.checkFn }

/-- rules/alter_field.py AlterColumnTypeRule._is_safe_change_with_old_field:
precise comparison of old and new field when the old field is known.
The metadata-only attribute loop of the source only logs and is
omitted. -/
def AlterColumnTypeRule.is_safe_change_with_old_field
    (old_field new_field : Field) : Bool :=
  if old_field.typeName != new_field.typeName then false
  else if old_field.null != new_field.null && new_field.null then true
  else if old_field.defaultVal != new_field.defaultVal
      && old_field.null == new_field.null
      && old_field.maxLength == new_field.maxLength
      && old_field.unique == new_field.unique then true
  else if old_field.null == new_field.null
      && old_field.maxLength == new_field.maxLength
      && old_field.unique == new_field.unique then true
  else false

/-- rules/alter_field.py AlterColumnTypeRule._is_likely_safe_change:
fallback heuristic when the old field state is unavailable. -/
def AlterColumnTypeRule.is_likely_safe_change (field : Field) : Bool :=
  if ["BooleanField", "NullBooleanField"].contains field.typeName then true
  else if field.typeName == "TextField" then true
  else if field.null then true
  else false

/-- rules/alter_field.py AlterColumnTypeRule.check (SM004): flags
AlterField operations that may rewrite the table, comparing with the
old field when available and falling back to a heuristic otherwise. -/
def AlterColumnTypeRule.checkFn (operation : Operation)
    (_migration : Migration) (old : Option Field) : Option Issue :=
  match operation with
  | .alterField model_name field_name field =>
    let skip :=
      match old with
      | some old_field => AlterColumnTypeRule.is_safe_change_with_old_field old_field field
      | none => AlterColumnTypeRule.is_likely_safe_change field
    if skip then none
    else
      some (create_issue "SM004" .warning operation
        ("Altering field " ++ sq ++ field_name ++ sq ++ " on " ++ sq
          ++ model_name ++ sq ++ " to type " ++ sq ++ field.typeName ++ sq
          ++ " may require table rewrite and lock"))
  | _ => none

/-- The SM004 rule object. -/
def AlterColumnTypeRule : Rule :=
  { ruleId := "SM004"
    severity := .warning
    dbVendors := none
    check := AlterColumnTypeRule.checkFn }

/-- rules/alter_field.py AlterVarcharLengthRule.check (SM013): flags a
CharField AlterField that decreases max_length when the old field is
known, and emits a less specific fallback issue when it is not. -/
def AlterVarcharLengthRule.checkFn (operation : Operation)
    (_migration : Migration) (old : Option Field) : Option Issue :=
  match operation with
  | .alterField model_name field_name field =>
    if field.typeName != "CharField" then none
    else
      match field.maxLength with
      | none => none
      | some new_max_length =>
        let fallback :=
          some (create_issue "SM013" .warning operation
            ("Altering CharField " ++ sq ++ field_name ++ sq ++ " on " ++ sq
              ++ model_name ++ sq
              ++ " - if decreasing max_length, this will rewrite the table"))
        match old with
        | some old_field =>
          if old_field.typeName != "CharField" then none
          else
            match old_field.maxLength with
            | some old_max_length =>
              if new_max_length ≥ old_max_length then none
              else
                some (create_issue "SM013" .warning operation
                  ("Decreasing CharField " ++ sq ++ field_name ++ sq
                    ++ " max_length on " ++ sq ++ model_name ++ sq ++ " from "
                    ++ toString old_max_length ++ " to "
                    ++ toString new_max_length ++ " requires table rewrite"))
            | none => fallback
        | none => fallback
  | _ => none

/-- The SM013 rule object (db_vendors = [postgresql]). -/
def AlterVarcharLengthRule : Rule :=
  { ruleId := "SM013"
    severity := .warning
    dbVendors := some ["postgresql"]
    check := AlterVarcharLengthRule.checkFn }

/-- rules/alter_field.py AlterFieldNullFalseRule.check (SM020): flags
AlterField setting null=False; with a known old field it only warns
when the field was previously nullable, without one it always warns. -/
def AlterFieldNullFalseRule.checkFn (operation : Operation)
    (_migration : Migration) (old : Option Field) : Option Issue :=
  match operation with
  | .alterField model_name field_name field =>
    let is_not_null := !field.null
    if !is_not_null then none
    else
      let skip :=
        match old with
        | some old_field => !old_field.null
        | none => false
      if skip then none
      else
        some (create_issue "SM020" .error operation
          ("AlterField on " ++ sq ++ field_name ++ sq
            ++ " sets null=False. Ensure all existing rows in " ++ sq
            ++ model_name ++ sq
            ++ " have non-NULL values, or the migration will fail."))
  | _ => none

/-- The SM020 rule object. -/
def AlterFieldNullFalseRule : Rule :=
  { ruleId := "SM020"
    severity := .error
    dbVendors := none
    check := AlterFieldNullFalseRule.checkFn }

/-- rules/alter_field.py AlterFieldUniqueRule.check (SM021): flags
AlterField adding unique=True; with a known old field it only warns
when the field was not already unique. -/
def AlterFieldUniqueRule.checkFn (operation : Operation)
    (_migration : Migration) (old : Option Field) : Option Issue :=
  match operation with
  | .alterField model_name field_name field =>
    if !field.unique then none
    else
      let skip :=
        match old with
        | some old_field => old_field.unique
        | none => false
      if skip then none
      else
        some (create_issue "SM021" .error operation
          ("Adding unique=True to " ++ sq ++ field_name ++ sq ++ " on " ++ sq
            ++ model_name ++ sq
            ++ " via AlterField will scan and lock the entire table during index creation."))
  | _ => none

/-- The SM021 rule object (db_vendors = [postgresql]). -/
def AlterFieldUniqueRule : Rule :=
  { ruleId := "SM021"
    severity := .error
    dbVendors := some ["postgresql"]
    check := AlterFieldUniqueRule.checkFn }

/-- rules/alter_field.py DropNotNullRule.check (SM029): flags AlterField
making a NOT NULL field nullable; when the old field is unavailable
the source returns None (it cannot tell whether this is a change). -/
def DropNotNullRule.checkFn (operation : Operation)
    (_migration : Migration) (old : Option Field) : Option Issue :=
  match operation with
  | .alterField model_name field_name field =>
    if !field.null then none
    else
      match old with
      | none => none
      | some old_field =>
        let was_not_null := !old_field.null
        if !was_not_null then none
        else
          some (create_issue "SM029" .warning operation
            ("AlterField on " ++ sq ++ field_name ++ sq ++ " changes " ++ sq
              ++ model_name ++ sq
              ++ " from NOT NULL to nullable. Ensure application code handles NULL values correctly."))
  | _ => none

/-- The SM029 rule object. -/
def DropNotNullRule : Rule :=
  { ruleId := "SM029"
    severity := .warning
    dbVendors := none
    check := DropNotNullRule.checkFn }

/-- Python str.join with a separator, as used by the comma join in
rules/graph.py. -/
def joinWith (sep : String) : List String → String
  | [] => ""
  | [x] => x
  | x :: rest => x ++ sep ++ joinWith sep rest

/-- Lexicographic less-or-equal on code-point lists: the order Python
uses to compare strings. -/
def charListLeb : List Char → List Char → Bool
  | [], _ => true
  | _ :: _, [] => false
  | a :: as, b :: bs =>
    if a.toNat < b.toNat then true
    else if b.toNat < a.toNat then false
    else charListLeb as bs

/-- Lexicographic less-or-equal on strings (Python string comparison). -/
def strLeb (a b : String) : Bool :=
  charListLeb a.data b.data

/-- Ascending sort on strings (Python sorted on str keys). -/
def sortStrings (l : List String) : List String :=
  l.insertionSort (fun a b => strLeb a b = true)

/-- rules/graph.py get_merge_suggestion: remediation text listing the
leaf migrations of the app. -/
def get_merge_suggestion (app_label : String)
    (leaf_migrations : List String) : String :=
  let migrations_str := joinWith "\n        "
    ((sortStrings leaf_migrations).map
      (fun m => "(\"" ++ app_label ++ "\", \"" ++ m ++ "\"),"))
  "Create a merge migration to resolve the conflict:\n\n"
    ++ "1. Automatic (recommended):\n"
    ++ "   python manage.py makemigrations --merge " ++ app_label ++ "\n\n"
    ++ "   Django will create a migration like:\n"
    ++ "   class Migration(migrations.Migration):\n"
    ++ "       dependencies = [\n"
    ++ "        " ++ migrations_str ++ "\n"
    ++ "       ]\n"
    ++ "       operations = []\n\n"
    ++ "2. Manual (if auto-merge fails):\n"
    ++ "   Create a new migration file in " ++ app_label ++ "/migrations/ with:\n\n"
    ++ "   from django.db import migrations\n\n"
    ++ "   class Migration(migrations.Migration):\n"
    ++ "       dependencies = [\n"
    ++ "        " ++ migrations_str ++ "\n"
    ++ "       ]\n\n"
    ++ "       # Empty operations - this just merges the branches\n"
    ++ "       operations = []\n\n"
    ++ "3. Prevention:\n"
    ++ "   - Coordinate migration creation across branches\n"
    ++ "   - Rebase feature branches frequently\n"
    ++ "   - Consider using migration locking in CI\n"

/-- rules/graph.py MissingMergeMigrationRule.check: the operation-level
check of the graph rule always returns None. -/
def MissingMergeMigrationRule.checkFn (_operation : Operation)
    (_migration : Migration) (_old : Option Field) : Option Issue :=
  none

/-- The SM027 rule object. -/
def MissingMergeMigrationRule : Rule :=
  { ruleId := "SM027"
    severity := .error
    dbVendors := none
    check := MissingMergeMigrationRule.checkFn }

/-- rules/graph.py MissingMergeMigrationRule.check_graph: once per app,
emits a single Issue naming all leaf migrations when there are at least
two of them, with no operation location attached. -/
def MissingMergeMigrationRule.check_graph (app_label : String)
    (leaf_migrations : List String) : Option Issue :=
  if leaf_migrations.length ≤ 1 then none
  else
    let migration_list := joinWith ", " (sortStrings leaf_migrations)
    some
      { rule_id := "SM027"
        severity := .error
        operation := "Multiple leaf migrations in " ++ app_label
        message :=
          "App " ++ sq ++ app_label ++ sq ++ " has "
            ++ toString leaf_migrations.length ++ " leaf migrations: "
            ++ migration_list
            ++ ". Create a merge migration with: python manage.py makemigrations --merge "
            ++ app_label
        suggestion := some (get_merge_suggestion app_label leaf_migrations)
        app_label := some app_label
        migration_name := none
        file_path := none
        line_number := none }

/-! ## Configuration resolution (conf.py) -/

/-- conf.py RULE_CATEGORIES: the static table mapping category names to
rule ids. -/
def RULE_CATEGORIES : List (String × List String) :=
  [("postgresql", ["SM005", "SM010", "SM011", "SM012", "SM013", "SM018"]),
   ("mysql", []),
   ("sqlite", []),
   ("indexes", ["SM010", "SM011", "SM018"]),
   ("constraints", ["SM009", "SM011", "SM015", "SM017"]),
   ("destructive", ["SM002", "SM003", "SM009"]),
   ("locking", ["SM004", "SM005", "SM010", "SM011", "SM013"]),
   ("data-loss", ["SM002", "SM003", "SM009"]),
   ("reversibility", ["SM007", "SM016", "SM017"]),
   ("data-migrations", ["SM007", "SM008", "SM016", "SM017"]),
   ("high-risk", ["SM001", "SM002", "SM003", "SM010", "SM011", "SM018"]),
   ("informational", ["SM006", "SM014", "SM019"]),
   ("naming", ["SM019"]),
   ("schema-changes", ["SM001", "SM002", "SM003", "SM004", "SM006", "SM013", "SM014"])]

/-- Per-app entry of the APP_RULES configuration dictionary: the three
override lists conf.py reads, plus a flag recording whether the entry
dictionary carries any further keys (so that the Python truthiness test
`if not app_config` is modelled exactly). -/
structure AppCfg where
  disabledRules : List String
  enabledCategories : List String
  disabledCategories : List String
  hasOtherKeys : Bool
deriving DecidableEq, Repr

/-- The empty per-app configuration dictionary. -/
def AppCfg.empty : AppCfg :=
  { disabledRules := []
    enabledCategories := []
    disabledCategories := []
    hasOtherKeys := false }

/-- Python truthiness of the per-app configuration dictionary. -/
def AppCfg.isEmptyDict (a : AppCfg) : Bool :=
  a.disabledRules.isEmpty && a.enabledCategories.isEmpty
    && a.disabledCategories.isEmpty && !a.hasOtherKeys

/-- The merged SAFE_MIGRATIONS configuration snapshot built by
conf.get_config: user settings merged over DEFAULTS. Severity override
values are stored already parsed as Severity. -/
structure Config where
  disabledRules : List String
  disabledCategories : List String
  enabledCategories : List String
  ruleSeverity : List (String × Severity)
  excludedApps : List String
  appRules : List (String × AppCfg)
deriving Repr

/-- The DEFAULTS configuration of conf.py. -/
def Config.defaults : Config :=
  { disabledRules := []
    disabledCategories := []
    enabledCategories := []
    ruleSeverity := []
    excludedApps :=
      ["admin", "auth", "contenttypes", "sessions", "messages", "staticfiles"]
    appRules := [] }

/-- conf.is_rule_disabled: membership in the DISABLED_RULES list. -/
def is_rule_disabled (cfg : Config) (rule_id : String) : Bool :=
  cfg.disabledRules.contains rule_id

/-- conf.get_rule_severity: the severity override for a rule, or the
given default. -/
def get_rule_severity (cfg : Config) (rule_id : String)
    (default : Severity) : Severity :=
  (cfg.ruleSeverity.lookup rule_id).getD default

/-- conf.get_rules_in_category: the rule ids of one category. -/
def get_rules_in_category (category : String) : List String :=
  (RULE_CATEGORIES.lookup category).getD []

/-- conf.get_rules_from_categories: the union (as a membership list) of
the rule ids of several categories, accumulated as in the source loop. -/
def get_rules_from_categories (categories : List String) : List String :=
  categories.foldl (fun rules category => rules ++ get_rules_in_category category) []

/-- conf.is_rule_disabled_by_category: whitelist mode via
ENABLED_CATEGORIES when non-empty, then DISABLED_CATEGORIES. -/
def is_rule_disabled_by_category (cfg : Config) (rule_id : String) : Bool :=
  if !cfg.enabledCategories.isEmpty
      && !(get_rules_from_categories cfg.enabledCategories).contains rule_id then
    true
  else if !cfg.disabledCategories.isEmpty
      && (get_rules_from_categories cfg.disabledCategories).contains rule_id then
    true
  else false

/-- conf.is_rule_enabled: individual disable first, then category-based
disable. -/
def is_rule_enabled (cfg : Config) (rule_id : String) : Bool :=
  if is_rule_disabled cfg rule_id then false
  else if is_rule_disabled_by_category cfg rule_id then false
  else true

/-- conf.get_app_config: the APP_RULES entry of an app, or the empty
dictionary. -/
def get_app_config (cfg : Config) (app_label : String) : AppCfg :=
  (cfg.appRules.lookup app_label).getD AppCfg.empty

/-- conf.is_rule_enabled_for_app: app-specific disables and category
overrides first, falling back to the global decision. -/
def is_rule_enabled_for_app (cfg : Config) (rule_id : String)
    (app_label : Option String) : Bool :=
  match app_label with
  | none => is_rule_enabled cfg rule_id
  | some app =>
    let app_config := get_app_config cfg app
    if app_config.isEmptyDict then is_rule_enabled cfg rule_id
    else if app_config.disabledRules.contains rule_id then false
    else if !app_config.enabledCategories.isEmpty
        && !(get_rules_from_categories app_config.enabledCategories).contains rule_id then
      false
    else if !app_config.disabledCategories.isEmpty
        && (get_rules_from_categories app_config.disabledCategories).contains rule_id then
      false
    else is_rule_enabled cfg rule_id

/-! ## Baseline matching (baseline.py) -/

/-- One entry of a baseline file as filter_baselined_issues reads it
with entry.get: each key may be absent (none). -/
structure BaselineEntry where
  rule_id : Option String
  app_label : Option String
  migration_name : Option String
  operation : Option String
deriving DecidableEq, Repr

/-- baseline.generate_baseline, restricted to the entries it records
(the JSON serialization to disk and the returned count are outside the
model): each issue becomes an entry of its rule_id, app_label,
migration_name and operation. -/
def generate_baseline (issues : List Issue) : List BaselineEntry :=
  issues.map (fun issue =>
    { rule_id := some issue.rule_id
      app_label := issue.app_label
      migration_name := issue.migration_name
      operation := some issue.operation })

/-- The identity key of a baseline entry, as built from entry.get in
filter_baselined_issues. -/
def BaselineEntry.key (e : BaselineEntry) :
    Option String × Option String × Option String × Option String :=
  (e.rule_id, e.app_label, e.migration_name, e.operation)

/-- The identity key of an issue, as built in filter_baselined_issues. -/
def Issue.baselineKey (i : Issue) :
    Option String × Option String × Option String × Option String :=
  (some i.rule_id, i.app_label, i.migration_name, some i.operation)

/-- baseline.filter_baselined_issues: remove the issues whose identity
key is present in the baseline (the suppressed counter only feeds a log
line). -/
def filter_baselined_issues (issues : List Issue)
    (baseline : List BaselineEntry) : List Issue :=
  let baseline_keys := baseline.map BaselineEntry.key
  issues.filter (fun issue => !(baseline_keys.contains issue.baselineKey))

/-! ## The analyzer (analyzer.py) -/

/-- The advisory lookups of utils.py that analyzer.py calls
(get_migration_file_path and get_operation_line_number), passed
explicitly as the environment of a run. -/
structure Env where
  filePathOf : Migration → Option String
  lineOf : Migration → Nat → Option Nat

/-- The environment in which both lookups fail (all locations null);
the core must function with the lookup collaborator absent. -/
def Env.null : Env :=
  { filePathOf := fun _ => none
    lineOf := fun _ _ => none }

/-- The Django MigrationLoader state that analyze_app and analyze_all
read: the keys of disk_migrations (every migration file on disk) and
the nodes of the loader graph. When a squash migration replaces older
migrations, Django prunes the replaced migrations from graph.nodes
although they remain in disk_migrations (behaviour documented by
tests/unit/test_analyzer.py TestSquashedMigrations). -/
structure Loader where
  disk_migrations : List (String × String)
  graph_nodes : List ((String × String) × Migration)

/-- Django MigrationLoader.get_migration: a lookup in graph.nodes,
which fails (KeyError) for a migration pruned from the graph. -/
def Loader.get_migration (l : Loader) (app name : String) : Option Migration :=
  l.graph_nodes.lookup (app, name)

/-- The restriction of the ALL_RULES registry of rules/__init__.py to
the rules modelled in this file. Of the modelled rules, exactly SM001,
SM004 and SM013 appear in ALL_RULES (in this relative order);
AlterFieldNullFalseRule, AlterFieldUniqueRule, DropNotNullRule and
MissingMergeMigrationRule are defined in the source but never
registered there. The registered rules not modelled here check other
operation kinds (RemoveField, RunSQL, constraints, indexes) and each
tags its issues with its own rule id. -/
def MODELLED_REGISTRY : List Rule :=
  [NotNullWithoutDefaultRule, AlterColumnTypeRule, AlterVarcharLengthRule]

/-- rules/__init__.get_all_rules: instantiate every registered rule and
keep those applying to the vendor. -/
def get_all_rules (db_vendor : String) : List Rule :=
  MODELLED_REGISTRY.filter (fun rule => rule.applies_to_db db_vendor)

/-- The MigrationAnalyzer state after __init__: the rule list, the
database vendor and the optional constructor-supplied disabled rule
list. -/
structure MigrationAnalyzer where
  rules : List Rule
  db_vendor : String
  disabled_rules : Option (List String)

/-- MigrationAnalyzer.__init__ with rules=None: the rule list comes
from get_all_rules for the vendor. -/
def MigrationAnalyzer.mk_default (db_vendor : String)
    (disabled_rules : Option (List String)) : MigrationAnalyzer :=
  { rules := get_all_rules db_vendor
    db_vendor := db_vendor
    disabled_rules := disabled_rules }

/-- MigrationAnalyzer._is_rule_disabled: the constructor list when one
was given, otherwise conf.is_rule_disabled (which reads only
DISABLED_RULES). -/
def MigrationAnalyzer.is_rule_disabled_check (a : MigrationAnalyzer)
    (cfg : Config) (rule_id : String) : Bool :=
  match a.disabled_rules with
  | some l => l.contains rule_id
  | none => is_rule_disabled cfg rule_id

/-- The enrichment step of MigrationAnalyzer.analyze_migration applied
to one issue returned by a rule: apply the severity override, then fill
file_path, line_number, app_label and migration_name only when the rule
left them unset. -/
def enrichIssue (cfg : Config) (file_path : Option String)
    (line_number : Option Nat) (app_label migration_name : Option String)
    (issue : Issue) : Issue :=
  let issue := { issue with
    severity := get_rule_severity cfg issue.rule_id issue.severity }
  let issue := if issue.file_path = none then { issue with file_path := file_path } else issue
  let issue := if issue.line_number = none then { issue with line_number := line_number } else issue
  let issue := if issue.app_label = none then { issue with app_label := app_label } else issue
  let issue := if issue.migration_name = none then { issue with migration_name := migration_name } else issue
  issue

/-- MigrationAnalyzer.analyze_migration: for every operation in
declaration order and every rule in registration order, skip disabled
rules and rules not applying to the vendor, call the rule check (the
kwargs carry no old_field entry, hence the none argument), and enrich
each returned issue. -/
def MigrationAnalyzer.analyze_migration (a : MigrationAnalyzer) (env : Env)
    (cfg : Config) (migration : Migration)
    (app_label_arg migration_name_arg : Option String) : List Issue :=
  let file_path := env.filePathOf migration
  let app_label :=
    match app_label_arg with
    | none => migration.app_label
    | some x => some x
  let migration_name :=
    match migration_name_arg with
    | none => migration.name
    | some x => some x
  migration.operations.enum.flatMap (fun p =>
    a.rules.filterMap (fun rule =>
      if a.is_rule_disabled_check cfg rule.ruleId then none
      else if !rule.applies_to_db a.db_vendor then none
      else
        match rule.check p.2 migration none with
        | none => none
        | some issue =>
          some (enrichIssue cfg file_path (env.lineOf migration p.1)
            app_label migration_name issue)))

/-- Ascending sort by migration name of the (name, migration) pairs of
an app (Python list.sort with a name key). -/
def sortByName (l : List (String × Migration)) : List (String × Migration) :=
  l.insertionSort (fun p q => strLeb p.1 q.1 = true)

/-- MigrationAnalyzer.analyze_app: look every disk migration of the app
up through loader.get_migration (a KeyError surfaces as an error), sort
the pairs by migration name, and concatenate the per-migration issue
lists. -/
def MigrationAnalyzer.analyze_app (a : MigrationAnalyzer) (env : Env)
    (cfg : Config) (loader : Loader) (app_label : String) :
    Except String (List Issue) := do
  let keys := loader.disk_migrations.filter (fun k => k.1 == app_label)
  let app_migrations ← keys.mapM (fun k =>
    match loader.get_migration k.1 k.2 with
    | some m => Except.ok (k.2, m)
    | none => Except.error ("KeyError: (" ++ k.1 ++ ", " ++ k.2 ++ ")"))
  let sorted := sortByName app_migrations
  return sorted.flatMap (fun p =>
    a.analyze_migration env cfg p.2 (some app_label) (some p.1))

/-- The app labels analyze_all walks: the distinct apps having disk
migrations, in sorted order (Python sorted over the app set). -/
def appOrder (loader : Loader) : List String :=
  sortStrings (loader.disk_migrations.map Prod.fst).eraseDups

/-- MigrationAnalyzer.analyze_all: walk the sorted app labels, skip the
excluded apps (the EXCLUDED_APPS setting when no explicit list is
given), and concatenate the per-app issue lists. -/
def MigrationAnalyzer.analyze_all (a : MigrationAnalyzer) (env : Env)
    (cfg : Config) (loader : Loader) (exclude_apps_arg : Option (List String)) :
    Except String (List Issue) := do
  let exclude_apps :=
    match exclude_apps_arg with
    | none => cfg.excludedApps
    | some l => l
  let kept := (appOrder loader).filter (fun app => !(exclude_apps.contains app))
  let results ← kept.mapM (fun app => a.analyze_app env cfg loader app)
  return results.flatten

/-! ## The State Resolver described by the spec

The definitions in this section are NOT translated from analyzer.py:
no state resolution exists there. They follow the words of the spec
(sections 4.2 and 4.5, step 3) and exist only so that claim C1, which
asserts that the analysis supplies resolved prior state to each rule
check, can be stated and compared against the analyzer above. -/

/-- The replay state of the spec resolver: a mapping from
(model, column) to the most recent field definition. -/
def ColumnState := List ((String × String) × Field)

/-- Modelled from the spec: replaying one operation into the
(table, column) to ColumnSpec mapping of spec section 4.2. -/
def applyOperationToState (st : ColumnState) : Operation → ColumnState
  | .addField m n f => ((m, n), f) :: st
  | .alterField m n f => ((m, n), f) :: st
  | .removeField m n => st.filter (fun p => !(p.1 == (m, n)))
  | .renameField m o n =>
    st.map (fun p => if p.1 == (m, o) then ((m, n), p.2) else p)
  | .renameModel o n =>
    st.map (fun p => if p.1.1 == o then ((n, p.1.2), p.2) else p)
  | .otherOp _ => st

/-- Modelled from the spec: the prior state of the column affected by
an operation, read from the replay state. -/
def priorFieldFor (st : ColumnState) : Operation → Option Field
  | .addField m n _ => st.lookup (m, n)
  | .alterField m n _ => st.lookup (m, n)
  | .removeField m n => st.lookup (m, n)
  | _ => none

/-- Modelled from the spec: analyze_migration as spec section 4.5 step
3 words it, resolving the prior state of each operation from the
replay state and supplying it to every rule check, then advancing the
state. Everything else matches analyze_migration above. -/
def spec_analyze_migration_resolved (a : MigrationAnalyzer) (env : Env)
    (cfg : Config) (migration : Migration)
    (app_label_arg migration_name_arg : Option String) (st : ColumnState) :
    List Issue × ColumnState :=
  let file_path := env.filePathOf migration
  let app_label :=
    match app_label_arg with
    | none => migration.app_label
    | some x => some x
  let migration_name :=
    match migration_name_arg with
    | none => migration.name
    | some x => some x
  migration.operations.enum.foldl
    (fun acc p =>
      let issues := a.rules.filterMap (fun rule =>
        if a.is_rule_disabled_check cfg rule.ruleId then none
        else if !rule.applies_to_db a.db_vendor then none
        else
          match rule.check p.2 migration (priorFieldFor acc.2 p.2) with
          | none => none
          | some issue =>
            some (enrichIssue cfg file_path (env.lineOf migration p.1)
              app_label migration_name issue))
      (acc.1 ++ issues, applyOperationToState acc.2 p.2))
    ([], st)

/-- Modelled from the spec: analyze_app with the spec State Resolver,
threading the replay state through the changesets of the scope. The
walk order is the sorted name order, which coincides with the
dependency order for the two-changeset scopes of claim C1. -/
def spec_analyze_app_resolved (a : MigrationAnalyzer) (env : Env)
    (cfg : Config) (loader : Loader) (app_label : String) :
    Except String (List Issue) := do
  let keys := loader.disk_migrations.filter (fun k => k.1 == app_label)
  let app_migrations ← keys.mapM (fun k =>
    match loader.get_migration k.1 k.2 with
    | some m => Except.ok (k.2, m)
    | none => Except.error ("KeyError: (" ++ k.1 ++ ", " ++ k.2 ++ ")"))
  let sorted := sortByName app_migrations
  return (sorted.foldl
    (fun acc p =>
      let r := spec_analyze_migration_resolved a env cfg p.2
        (some app_label) (some p.1) acc.2
      (acc.1 ++ r.1, r.2))
    ([], ([] : ColumnState))).1

/-! ## Concrete scenarios used by the claim theorems -/

/-- A migration with no operations, used where a migration argument is
needed but never read. -/
def mig_empty : Migration :=
  { app_label := none
    name := none
    operations := []
    dependencies := []
    replaces := [] }

/-- The default analyzer for PostgreSQL (rules from the registry, no
constructor disable list). -/
def analyzer_pg : MigrationAnalyzer :=
  MigrationAnalyzer.mk_default "postgresql" none

/-- A nullable CharField of max_length 100. -/
def fieldA_nullable : Field :=
  { typeName := "CharField"
    null := true
    defaultVal := none
    dbDefault := none
    primaryKey := false
    unique := false
    maxLength := some 100
    dbConstraint := none }

/-- The same CharField made NOT NULL (null=False), as changeset B of
claim C1 declares it. -/
def fieldB_notnull : Field :=
  { fieldA_nullable with null := false }

/-- Changeset A of claim C1: adds the nullable column. -/
def mig_c1_a : Migration :=
  { app_label := some "app"
    name := some "0001_add"
    operations := [.addField "user" "email" fieldA_nullable]
    dependencies := []
    replaces := [] }

/-- Changeset B of claim C1: depends on A and makes the column NOT
NULL. -/
def mig_c1_b : Migration :=
  { app_label := some "app"
    name := some "0002_notnull"
    operations := [.alterField "user" "email" fieldB_notnull]
    dependencies := [("app", "0001_add")]
    replaces := [] }

/-- The loader state of the claim C1 scope: both changesets on disk and
in the graph. -/
def loader_c1 : Loader :=
  { disk_migrations := [("app", "0001_add"), ("app", "0002_notnull")]
    graph_nodes := [(("app", "0001_add"), mig_c1_a), (("app", "0002_notnull"), mig_c1_b)] }

/-- A ForeignKey declaring db_constraint=False, NOT NULL, with no
default: it meets every condition claim C2 lists, yet SM001 does not
flag it. -/
def fk_field_no_constraint : Field :=
  { typeName := "ForeignKey"
    null := false
    defaultVal := none
    dbDefault := none
    primaryKey := false
    unique := false
    maxLength := none
    dbConstraint := some false }

/-- A NOT NULL CharField with no default: the plain unsafe AddField
field of the test suite. -/
def notnull_char_field : Field :=
  { typeName := "CharField"
    null := false
    defaultVal := none
    dbDefault := none
    primaryKey := false
    unique := false
    maxLength := some 255
    dbConstraint := none }

/-- The configuration of claim C4: the high-risk category (containing
SM001) globally disabled, nothing else set. -/
def cfg_c4 : Config :=
  { disabledRules := []
    disabledCategories := ["high-risk"]
    enabledCategories := []
    ruleSeverity := []
    excludedApps := []
    appRules := [] }

/-- The migration of claim C4: one unsafe AddField operation that SM001
flags. -/
def mig_c4 : Migration :=
  { app_label := some "testapp"
    name := some "0001_initial"
    operations := [.addField "user" "email" notnull_char_field]
    dependencies := []
    replaces := [] }

/-- The replaced migration of claim C5 (still on disk). -/
def mig_c5_old : Migration :=
  { app_label := some "testapp"
    name := some "0001_initial"
    operations := [.addField "user" "email" fieldA_nullable]
    dependencies := []
    replaces := [] }

/-- The squash migration of claim C5, declaring replaces = [A]. -/
def mig_c5_squash : Migration :=
  { app_label := some "testapp"
    name := some "0002_squashed"
    operations := [.addField "user" "email" fieldA_nullable]
    dependencies := []
    replaces := [("testapp", "0001_initial")] }

/-- The loader state of claim C5: both migrations on disk, but the
replaced one pruned from the graph (Django removed it when applying the
replacement). -/
def loader_c5 : Loader :=
  { disk_migrations := [("testapp", "0001_initial"), ("testapp", "0002_squashed")]
    graph_nodes := [(("testapp", "0002_squashed"), mig_c5_squash)] }

/-- The claim C1 scope, generalized over model name, column name and
max_length: the nullable CharField changeset A adds. -/
def c1_field_a (m : Nat) : Field :=
  { typeName := "CharField"
    null := true
    defaultVal := none
    dbDefault := none
    primaryKey := false
    unique := false
    maxLength := some m
    dbConstraint := none }

/-- The same CharField made NOT NULL by changeset B. -/
def c1_field_b (m : Nat) : Field :=
  { c1_field_a m with null := false }

/-- Changeset A of the generalized claim C1 scope. -/
def c1_mig_a (model col : String) (m : Nat) : Migration :=
  { app_label := some "app"
    name := some "0001_add"
    operations := [.addField model col (c1_field_a m)]
    dependencies := []
    replaces := [] }

/-- Changeset B of the generalized claim C1 scope: depends on A. -/
def c1_mig_b (model col : String) (m : Nat) : Migration :=
  { app_label := some "app"
    name := some "0002_notnull"
    operations := [.alterField model col (c1_field_b m)]
    dependencies := [("app", "0001_add")]
    replaces := [] }

/-- The loader of the generalized claim C1 scope: both changesets on
disk and in the graph. -/
def c1_loader (model col : String) (m : Nat) : Loader :=
  { disk_migrations := [("app", "0001_add"), ("app", "0002_notnull")]
    graph_nodes := [(("app", "0001_add"), c1_mig_a model col m),
                    (("app", "0002_notnull"), c1_mig_b model col m)] }

/-- An example issue used by the closed witness theorems. -/
def issue_ex : Issue :=
  { rule_id := "SM001"
    severity := .error
    operation := "AddField(user.email)"
    message := "m"
    suggestion := none
    app_label := some "testapp"
    migration_name := some "0001_initial"
    file_path := none
    line_number := none }

/-- Claim C6 compares a configuration C with a configuration obtained
from C by adding entries to disable lists: every rule-id disable list
and disabled-category list may grow (globally and per app), while the
whitelists (ENABLED_CATEGORIES), severity overrides and the remaining
per-app keys stay as they were. -/
def Config.addsDisables (C C' : Config) : Prop :=
  C.disabledRules ⊆ C'.disabledRules ∧
  C.disabledCategories ⊆ C'.disabledCategories ∧
  C.enabledCategories = C'.enabledCategories ∧
  ∀ app : String,
    (get_app_config C app).disabledRules ⊆ (get_app_config C' app).disabledRules ∧
    (get_app_config C app).disabledCategories
      ⊆ (get_app_config C' app).disabledCategories ∧
    (get_app_config C app).enabledCategories
      = (get_app_config C' app).enabledCategories ∧
    (get_app_config C app).hasOtherKeys = (get_app_config C' app).hasOtherKeys

/-! ## Helper lemmas -/

/-- The baseline entries generated from an issue list carry exactly the
identity keys of those issues. -/
theorem generate_baseline_keys (issues : List Issue) :
    (generate_baseline issues).map BaselineEntry.key = issues.map Issue.baselineKey := by
  unfold generate_baseline
  rw [List.map_map]
  rfl

/-- An infix of the left summand is an infix of an appended string. -/
theorem infix_data_right (m : List Char) (a b : String) (h : m <:+: a.data) :
    m <:+: (a ++ b).data := by
  rw [String.data_append]
  exact h.trans (List.prefix_append a.data b.data).isInfix

/-- An infix of the right summand is an infix of an appended string. -/
theorem infix_data_left (m : List Char) (a b : String) (h : m <:+: b.data) :
    m <:+: (a ++ b).data := by
  rw [String.data_append]
  exact h.trans (List.suffix_append a.data b.data).isInfix

/-- Every member of a joined string list occurs inside the join. -/
theorem mem_joinWith_infix (sep : String) :
    ∀ (l : List String) (m : String), m ∈ l → m.data <:+: (joinWith sep l).data := by
  intro l
  induction l with
  | nil => intro m h; cases h
  | cons x xs ih =>
    intro m h
    cases xs with
    | nil =>
      have : m = x := by simpa using h
      subst this
      exact List.infix_refl _
    | cons y ys =>
      rcases List.mem_cons.mp h with rfl | h'
      · show m.data <:+: (m ++ sep ++ joinWith sep (y :: ys)).data
        exact infix_data_right _ _ _ (infix_data_right _ _ _ (List.infix_refl _))
      · show m.data <:+: (x ++ sep ++ joinWith sep (y :: ys)).data
        exact infix_data_left _ _ _ (ih m h')

/-- The registry filtered for PostgreSQL keeps all three registered
rules. -/
theorem get_all_rules_postgresql :
    get_all_rules "postgresql"
      = [NotNullWithoutDefaultRule, AlterColumnTypeRule, AlterVarcharLengthRule] := rfl

/-- The code-point order on strings is total. -/
theorem charListLeb_total : ∀ as bs : List Char,
    charListLeb as bs = true ∨ charListLeb bs as = true := by
  intro as
  induction as with
  | nil => intro bs; left; cases bs <;> rfl
  | cons a as ih =>
    intro bs
    cases bs with
    | nil => right; rfl
    | cons b bs =>
      by_cases h1 : a.toNat < b.toNat
      · left; simp [charListLeb, h1]
      · by_cases h2 : b.toNat < a.toNat
        · right; simp [charListLeb, h2]
        · rcases ih bs with h | h
          · left; simp [charListLeb, h1, h2, h]
          · right; simp [charListLeb, h1, h2, h]

/-- The code-point order on strings is transitive. -/
theorem charListLeb_trans : ∀ as bs cs : List Char,
    charListLeb as bs = true → charListLeb bs cs = true →
    charListLeb as cs = true := by
  intro as
  induction as with
  | nil => intro bs cs _ _; cases cs <;> rfl
  | cons a as ih =>
    intro bs cs h1 h2
    cases bs with
    | nil => simp [charListLeb] at h1
    | cons b bs =>
      cases cs with
      | nil => simp [charListLeb] at h2
      | cons c cs =>
        simp only [charListLeb] at h1 h2 ⊢
        by_cases hab : a.toNat < b.toNat
        · by_cases hbc : b.toNat < c.toNat
          · simp [Nat.lt_trans hab hbc]
          · by_cases hcb : c.toNat < b.toNat
            · simp [hbc, hcb] at h2
            · have hac : a.toNat < c.toNat := by omega
              simp [hac]
        · by_cases hba : b.toNat < a.toNat
          · simp [hab, hba] at h1
          · by_cases hbc : b.toNat < c.toNat
            · have hac : a.toNat < c.toNat := by omega
              simp [hac]
            · by_cases hcb : c.toNat < b.toNat
              · simp [hbc, hcb] at h2
              · have hac : ¬ a.toNat < c.toNat := by omega
                have hca : ¬ c.toNat < a.toNat := by omega
                simp [hab, hba] at h1
                simp [hbc, hcb] at h2
                simp [hac, hca]
                exact ih bs cs h1 h2

theorem strLeb_total (a b : String) : strLeb a b = true ∨ strLeb b a = true :=
  charListLeb_total a.data b.data

theorem strLeb_trans {a b c : String} (h1 : strLeb a b = true)
    (h2 : strLeb b c = true) : strLeb a c = true :=
  charListLeb_trans a.data b.data c.data h1 h2

/-! ## Claim theorems -/

/-- C1 counterexample: on the two-changeset scope (A adds a nullable
CharField, B makes it NOT NULL), the analysis does not behave as if
prior state were resolved and supplied to the rule checks: the actual
analyze_app emits the cold-start fallback issue of SM013, which the
spec State Resolver semantics would suppress (the prior max_length is
unchanged), so the two disagree. -/
theorem claim1_counterexample :
    (analyzer_pg.analyze_app Env.null Config.defaults loader_c1 "app").map
        (List.map Issue.rule_id) = Except.ok ["SM004", "SM013"] ∧
    (spec_analyze_app_resolved analyzer_pg Env.null Config.defaults loader_c1 "app").map
        (List.map Issue.rule_id) = Except.ok ["SM004"] ∧
    analyzer_pg.analyze_app Env.null Config.defaults loader_c1 "app"
      ≠ spec_analyze_app_resolved analyzer_pg Env.null Config.defaults loader_c1 "app" := by
  refine ⟨rfl, rfl, ?_⟩
  intro h
  have e1 : (analyzer_pg.analyze_app Env.null Config.defaults loader_c1 "app").map
      (List.map Issue.rule_id) = Except.ok ["SM004", "SM013"] := rfl
  rw [h] at e1
  have e2 : (spec_analyze_app_resolved analyzer_pg Env.null Config.defaults loader_c1
      "app").map (List.map Issue.rule_id) = Except.ok ["SM004"] := rfl
  rw [e2] at e1
  exact absurd e1 (by simp)

/-- C1 amended: the analyzer resolves no prior state; every rule check
of the scope runs cold (old_field absent). On the two-changeset scope,
B's operation is therefore flagged by SM004 and by the less specific
SM013 fallback, although a prior CharField of the same max_length,
had it been supplied, would make SM013 report nothing. -/
theorem claim1_amended :
    ∀ (model col : String) (m : Nat),
      (analyzer_pg.analyze_app Env.null Config.defaults (c1_loader model col m)
          "app").map (List.map (fun i => (i.rule_id, i.message)))
        = Except.ok
            [("SM004",
              "Altering field " ++ sq ++ col ++ sq ++ " on " ++ sq ++ model ++ sq
                ++ " to type " ++ sq ++ "CharField" ++ sq
                ++ " may require table rewrite and lock"),
             ("SM013",
              "Altering CharField " ++ sq ++ col ++ sq ++ " on " ++ sq ++ model ++ sq
                ++ " - if decreasing max_length, this will rewrite the table")] ∧
      (∀ prior : Field, prior.typeName = "CharField" → prior.maxLength = some m →
        AlterVarcharLengthRule.checkFn (.alterField model col (c1_field_b m))
          (c1_mig_b model col m) (some prior) = none) := by
  intro model col m
  constructor
  · rfl
  · intro prior h1 h2
    simp [AlterVarcharLengthRule.checkFn, c1_field_b, c1_field_a, h1, h2]

/-- Witness for the amended claim C1 at the concrete scope. -/
theorem claim1_amended_witness :
    (analyzer_pg.analyze_app Env.null Config.defaults (c1_loader "user" "email" 100)
        "app").map (List.map Issue.rule_id) = Except.ok ["SM004", "SM013"] ∧
    AlterVarcharLengthRule.checkFn (.alterField "user" "email" (c1_field_b 100))
      (c1_mig_b "user" "email" 100) (some (c1_field_a 100)) = none := by
  obtain ⟨h1, h2⟩ := claim1_amended "user" "email" 100
  refine ⟨?_, h2 (c1_field_a 100) rfl rfl⟩
  have := congrArg (Except.map (List.map Prod.fst)) h1
  simpa [Except.map] using this

/-- C2 counterexample: a NOT NULL ForeignKey with no default, not a
primary key and not an auto field, but declaring db_constraint=False,
satisfies every condition the claim lists, yet SM001 reports nothing
(the claim demands exactly one issue). -/
theorem claim2_counterexample :
    fk_field_no_constraint.null = false ∧
    fk_field_no_constraint.defaultVal = none ∧
    fk_field_no_constraint.dbDefault = none ∧
    fk_field_no_constraint.primaryKey = false ∧
    (["AutoField", "BigAutoField", "SmallAutoField"].contains
      fk_field_no_constraint.typeName) = false ∧
    NotNullWithoutDefaultRule.checkFn (.addField "user" "owner" fk_field_no_constraint)
      mig_empty none = none ∧
    (((MigrationAnalyzer.mk_default "postgresql" none).analyze_migration Env.null
        Config.defaults
        { app_label := none, name := none,
          operations := [.addField "user" "owner" fk_field_no_constraint],
          dependencies := [], replaces := [] } none none).filter
      (fun i => i.rule_id == "SM001")) = [] := by
  refine ⟨rfl, rfl, rfl, rfl, ?_, rfl, ?_⟩ <;> rfl

/-- C2 amended: with the additional condition that the field does not
declare db_constraint=False, the analysis of an AddField of a NOT NULL
field without Python or database default that is neither a primary key
nor an auto field yields exactly one SM001 issue of Error severity
(assuming SM001 is not disabled and carries no severity override), and
zero SM001 issues when the field is nullable. -/
theorem claim2_amended :
    (∀ (model_name field_name : String) (field : Field) (env : Env) (cfg : Config)
       (disabled : Option (List String)) (app mn al nm : Option String)
       (deps reps : List (String × String)),
      field.null = false →
      field.defaultVal = none →
      field.dbDefault = none →
      field.primaryKey = false →
      (["AutoField", "BigAutoField", "SmallAutoField"].contains field.typeName) = false →
      (field.dbConstraint == some false) = false →
      (MigrationAnalyzer.mk_default "postgresql" disabled).is_rule_disabled_check cfg
        "SM001" = false →
      cfg.ruleSeverity.lookup "SM001" = none →
      (((MigrationAnalyzer.mk_default "postgresql" disabled).analyze_migration env cfg
          { app_label := al, name := nm,
            operations := [.addField model_name field_name field],
            dependencies := deps, replaces := reps } app mn).filter
        (fun i => i.rule_id == "SM001")).map Issue.severity = [Severity.error]) ∧
    (∀ (model_name field_name : String) (field : Field) (env : Env) (cfg : Config)
       (disabled : Option (List String)) (app mn al nm : Option String)
       (deps reps : List (String × String)),
      field.null = true →
      (((MigrationAnalyzer.mk_default "postgresql" disabled).analyze_migration env cfg
          { app_label := al, name := nm,
            operations := [.addField model_name field_name field],
            dependencies := deps, replaces := reps } app mn).filter
        (fun i => i.rule_id == "SM001")) = []) := by
  constructor
  · intro model_name field_name field env cfg disabled app mn al nm deps reps
      h1 h2 h3 h4 h5 h6 h7 h8
    simp only [MigrationAnalyzer.is_rule_disabled_check, MigrationAnalyzer.mk_default] at h7
    simp at h5 h6 h7
    simp [MigrationAnalyzer.analyze_migration, MigrationAnalyzer.mk_default,
      MigrationAnalyzer.is_rule_disabled_check,
      get_all_rules_postgresql, NotNullWithoutDefaultRule, AlterColumnTypeRule,
      AlterVarcharLengthRule, NotNullWithoutDefaultRule.checkFn,
      AlterColumnTypeRule.checkFn, AlterVarcharLengthRule.checkFn,
      Rule.applies_to_db, List.filterMap_cons, h1, h2, h3, h4, h5, h6, h7,
      enrichIssue, create_issue, get_rule_severity, h8]
  · intro model_name field_name field env cfg disabled app mn al nm deps reps h1
    simp [MigrationAnalyzer.analyze_migration, MigrationAnalyzer.mk_default,
      MigrationAnalyzer.is_rule_disabled_check,
      get_all_rules_postgresql, NotNullWithoutDefaultRule, AlterColumnTypeRule,
      AlterVarcharLengthRule, NotNullWithoutDefaultRule.checkFn,
      AlterColumnTypeRule.checkFn, AlterVarcharLengthRule.checkFn,
      Rule.applies_to_db, List.filterMap_cons, h1, enrichIssue, create_issue]

/-- Witness for the amended claim C2 at a concrete unsafe CharField and
a concrete nullable CharField. -/
theorem claim2_witness :
    (((MigrationAnalyzer.mk_default "postgresql" none).analyze_migration Env.null
        Config.defaults
        { app_label := none, name := none,
          operations := [.addField "user" "email" notnull_char_field],
          dependencies := [], replaces := [] } none none).filter
      (fun i => i.rule_id == "SM001")).map Issue.severity = [Severity.error] ∧
    (((MigrationAnalyzer.mk_default "postgresql" none).analyze_migration Env.null
        Config.defaults
        { app_label := none, name := none,
          operations := [.addField "user" "email" fieldA_nullable],
          dependencies := [], replaces := [] } none none).filter
      (fun i => i.rule_id == "SM001")) = [] :=
  ⟨claim2_amended.1 "user" "email" notnull_char_field Env.null Config.defaults none
      none none none none [] [] rfl rfl rfl rfl rfl rfl rfl rfl,
   claim2_amended.2 "user" "email" fieldA_nullable Env.null Config.defaults none
      none none none none [] [] rfl⟩

/-- C3: baseline round-trip. Filtering any non-empty issue list against
the baseline generated from that list yields the empty list, and
filtering any issue list against an empty baseline returns it
unchanged. -/
theorem claim3_baseline_round_trip :
    (∀ issues : List Issue, issues ≠ [] →
      filter_baselined_issues issues (generate_baseline issues) = []) ∧
    (∀ issues : List Issue, filter_baselined_issues issues [] = issues) := by
  constructor
  · intro issues _
    unfold filter_baselined_issues
    rw [List.filter_eq_nil_iff]
    intro i hi
    rw [generate_baseline_keys]
    simp
    exact ⟨i, hi, rfl⟩
  · intro issues
    unfold filter_baselined_issues
    simp

/-- Witness for claim C3 at a singleton issue list. -/
theorem claim3_witness :
    filter_baselined_issues [issue_ex] (generate_baseline [issue_ex]) = [] ∧
    filter_baselined_issues [issue_ex] [] = [issue_ex] :=
  ⟨claim3_baseline_round_trip.1 [issue_ex] (by simp),
   claim3_baseline_round_trip.2 [issue_ex]⟩

/-- C4 evaluation at the failing input: under a configuration that
disables the high-risk category (which contains SM001) and disables no
individual rule, conf.is_rule_enabled already reports SM001 disabled,
yet the analyzer still emits the SM001 issue, because
MigrationAnalyzer._is_rule_disabled consults only DISABLED_RULES. -/
theorem claim4_code_evaluation :
    is_rule_enabled cfg_c4 "SM001" = false ∧
    ((MigrationAnalyzer.mk_default "postgresql" none).analyze_migration Env.null cfg_c4
        mig_c4 none none).map Issue.rule_id = ["SM001"] := ⟨rfl, rfl⟩

/-- C5 evaluation at the failing input: with a squash migration on disk
next to the migration it replaces, analyze_app fails with a KeyError
(the replaced migration was pruned from the loader graph that
get_migration consults) instead of skipping the replaced migration. -/
theorem claim5_code_evaluation :
    analyzer_pg.analyze_app Env.null Config.defaults loader_c5 "testapp"
      = Except.error "KeyError: (testapp, 0001_initial)" := rfl

/-- Folding category appends equals an append of the flattened
categories. -/
theorem foldl_append_eq (g : String → List String) (l : List String) :
    ∀ acc : List String,
      l.foldl (fun rules c => rules ++ g c) acc = acc ++ l.flatMap g := by
  induction l with
  | nil => intro acc; simp
  | cons c cs ih => intro acc; simp [List.foldl_cons, ih, List.append_assoc]

/-- Membership characterization of get_rules_from_categories. -/
theorem mem_rules_from (cats : List String) (x : String) :
    x ∈ get_rules_from_categories cats ↔
      ∃ c ∈ cats, x ∈ get_rules_in_category c := by
  unfold get_rules_from_categories
  rw [foldl_append_eq]
  simp [List.mem_flatMap]

/-- Category union membership is monotone in the category list. -/
theorem rules_from_mono {cats cats' : List String} (h : cats ⊆ cats') {x : String}
    (hx : x ∈ get_rules_from_categories cats) :
    x ∈ get_rules_from_categories cats' := by
  rw [mem_rules_from] at hx ⊢
  obtain ⟨c, hc, hxc⟩ := hx
  exact ⟨c, h hc, hxc⟩

/-- Truth characterization of the category-based disable decision. -/
theorem dbc_true_iff (cfg : Config) (r : String) :
    is_rule_disabled_by_category cfg r = true ↔
      (cfg.enabledCategories ≠ [] ∧
        r ∉ get_rules_from_categories cfg.enabledCategories) ∨
      (cfg.disabledCategories ≠ [] ∧
        r ∈ get_rules_from_categories cfg.disabledCategories) := by
  unfold is_rule_disabled_by_category
  split_ifs with h1 h2 <;>
    simp_all [List.isEmpty_iff, List.elem_iff, List.contains]

/-- Truth characterization of the global enablement decision. -/
theorem is_rule_enabled_true_iff (cfg : Config) (r : String) :
    is_rule_enabled cfg r = true ↔
      r ∉ cfg.disabledRules ∧ is_rule_disabled_by_category cfg r = false := by
  unfold is_rule_enabled is_rule_disabled
  split_ifs with h1 h2 <;>
    simp_all [List.elem_iff, List.contains]

/-- Global enablement is antitone in the disable lists: a rule enabled
under the larger configuration was enabled under the smaller one. -/
theorem is_rule_enabled_mono {C C' : Config}
    (hdr : C.disabledRules ⊆ C'.disabledRules)
    (hdc : C.disabledCategories ⊆ C'.disabledCategories)
    (hec : C.enabledCategories = C'.enabledCategories) {r : String}
    (h : is_rule_enabled C' r = true) : is_rule_enabled C r = true := by
  rw [is_rule_enabled_true_iff] at h ⊢
  obtain ⟨h1, h2⟩ := h
  refine ⟨fun hmem => h1 (hdr hmem), ?_⟩
  rw [Bool.eq_false_iff] at h2 ⊢
  intro habs
  apply h2
  rw [dbc_true_iff] at habs ⊢
  rcases habs with ⟨hne, hnm⟩ | ⟨hne, hm⟩
  · left
    exact ⟨hec ▸ hne, hec ▸ hnm⟩
  · right
    refine ⟨fun h0 => hne (List.subset_nil.mp (h0 ▸ hdc)), rules_from_mono hdc hm⟩

/-- Truth characterization of the per-app enablement decision. -/
theorem for_app_true_iff (cfg : Config) (r : String) (app : String) :
    is_rule_enabled_for_app cfg r (some app) = true ↔
      is_rule_enabled cfg r = true ∧
      ((get_app_config cfg app).isEmptyDict = true ∨
        (r ∉ (get_app_config cfg app).disabledRules ∧
         ¬((get_app_config cfg app).enabledCategories ≠ [] ∧
            r ∉ get_rules_from_categories (get_app_config cfg app).enabledCategories) ∧
         ¬((get_app_config cfg app).disabledCategories ≠ [] ∧
            r ∈ get_rules_from_categories
              (get_app_config cfg app).disabledCategories))) := by
  show (let app_config := get_app_config cfg app
    if app_config.isEmptyDict = true then is_rule_enabled cfg r
    else if app_config.disabledRules.contains r = true then false
    else if (!app_config.enabledCategories.isEmpty
        && !(get_rules_from_categories app_config.enabledCategories).contains r)
        = true then false
    else if (!app_config.disabledCategories.isEmpty
        && (get_rules_from_categories app_config.disabledCategories).contains r)
        = true then false
    else is_rule_enabled cfg r) = true ↔ _
  simp only []
  split_ifs with h1 h2 h3 h4 <;>
    simp_all [List.isEmpty_iff, List.elem_iff, List.contains]

/-- C6: disabling is monotone. A rule disabled for a scope stays
disabled under any configuration that only adds entries to rule-id
disable lists or disabled-category lists, globally or per app; no
more-global enable overrides a disable. -/
theorem claim6_disable_monotone :
    ∀ (C C' : Config) (r : String) (s : Option String),
      Config.addsDisables C C' →
      is_rule_enabled_for_app C r s = false →
      is_rule_enabled_for_app C' r s = false := by
  intro C C' r s hle h
  rw [Bool.eq_false_iff] at h ⊢
  intro h'
  apply h
  obtain ⟨hdr, hdc, hec, happ⟩ := hle
  cases s with
  | none =>
    simp only [is_rule_enabled_for_app] at h' ⊢
    exact is_rule_enabled_mono hdr hdc hec h'
  | some app =>
    obtain ⟨hADR, hADC, hAEC, hAO⟩ := happ app
    rw [for_app_true_iff] at h' ⊢
    obtain ⟨hglob, hside⟩ := h'
    refine ⟨is_rule_enabled_mono hdr hdc hec hglob, ?_⟩
    rcases hside with hempty | ⟨hr, hecx, hdcx⟩
    · left
      unfold AppCfg.isEmptyDict at hempty ⊢
      simp only [Bool.and_eq_true, Bool.not_eq_true', List.isEmpty_iff] at hempty ⊢
      obtain ⟨⟨⟨e1, e2⟩, e3⟩, e4⟩ := hempty
      refine ⟨⟨⟨List.subset_nil.mp (e1 ▸ hADR), hAEC.trans e2⟩,
        List.subset_nil.mp (e3 ▸ hADC)⟩, hAO.trans e4⟩
    · right
      refine ⟨fun hmem => hr (hADR hmem), ?_, ?_⟩
      · rw [hAEC]
        exact hecx
      · rintro ⟨hne, hm⟩
        exact hdcx ⟨fun h0 => hne (List.subset_nil.mp (h0 ▸ hADC)),
          rules_from_mono hADC hm⟩

/-- A configuration disabling SM001 individually. -/
def cfg_c6 : Config :=
  { disabledRules := ["SM001"]
    disabledCategories := []
    enabledCategories := []
    ruleSeverity := []
    excludedApps := []
    appRules := [] }

/-- cfg_c6 plus an additional disabled category. -/
def cfg_c6' : Config :=
  { cfg_c6 with disabledCategories := ["indexes"] }

/-- Witness for claim C6: SM001, disabled under cfg_c6, stays disabled
after the indexes category is additionally disabled. -/
theorem claim6_witness :
    is_rule_enabled_for_app cfg_c6' "SM001" (some "legacy_app") = false :=
  claim6_disable_monotone cfg_c6 cfg_c6' "SM001" (some "legacy_app")
    ⟨by simp [cfg_c6, cfg_c6'],
     by simp [cfg_c6, cfg_c6'],
     rfl,
     fun app => ⟨by simp [cfg_c6, cfg_c6', get_app_config],
       by simp [cfg_c6, cfg_c6', get_app_config], rfl, rfl⟩⟩
    rfl

/-- C7: determinism of the analyzer. Two runs of analyze_all on equal
analyzers, environments, configurations, loaders and exclusion lists
return equal issue lists in equal order; moreover the order is stable:
analyze_all walks the app labels in ascending sorted order, and within
an app the migrations are visited in ascending name order. -/
theorem claim7_determinism :
    (∀ (a a' : MigrationAnalyzer) (env env' : Env) (cfg cfg' : Config)
       (loader loader' : Loader) (ex ex' : Option (List String)),
      a = a' → env = env' → cfg = cfg' → loader = loader' → ex = ex' →
      a.analyze_all env cfg loader ex = a'.analyze_all env' cfg' loader' ex') ∧
    (∀ loader : Loader,
      List.Sorted (fun a b => strLeb a b = true) (appOrder loader)) ∧
    (∀ l : List (String × Migration),
      List.Sorted (fun a b => strLeb a b = true) ((sortByName l).map Prod.fst)) := by
  refine ⟨?_, ?_, ?_⟩
  · intro a a' env env' cfg cfg' loader loader' ex ex' h1 h2 h3 h4 h5
    subst h1; subst h2; subst h3; subst h4; subst h5
    rfl
  · intro loader
    haveI : IsTotal String (fun a b => strLeb a b = true) := ⟨strLeb_total⟩
    haveI : IsTrans String (fun a b => strLeb a b = true) :=
      ⟨fun _ _ _ h1 h2 => strLeb_trans h1 h2⟩
    exact List.sorted_insertionSort _ _
  · intro l
    have hs : List.Sorted (fun p q : String × Migration => strLeb p.1 q.1 = true)
        (sortByName l) := by
      haveI : IsTotal (String × Migration) (fun p q => strLeb p.1 q.1 = true) :=
        ⟨fun a b => strLeb_total a.1 b.1⟩
      haveI : IsTrans (String × Migration) (fun p q => strLeb p.1 q.1 = true) :=
        ⟨fun _ _ _ h1 h2 => strLeb_trans h1 h2⟩
      exact List.sorted_insertionSort _ _
    exact List.Pairwise.map Prod.fst (fun a b h => h) hs

/-- Witness for claim C7: two runs on the claim C1 loader agree. -/
theorem claim7_witness :
    analyzer_pg.analyze_all Env.null Config.defaults loader_c1 none
      = analyzer_pg.analyze_all Env.null Config.defaults loader_c1 none :=
  claim7_determinism.1 analyzer_pg analyzer_pg Env.null Env.null Config.defaults
    Config.defaults loader_c1 loader_c1 none none rfl rfl rfl rfl rfl

/-- C8: the multiple-heads graph check. With at least two leaf
migrations it produces exactly one issue whose message names every
leaf, carrying no migration name, file path or line number; with zero
or one leaf it produces nothing; and the operation-level check of the
rule never produces an issue, so the result is independent of
per-operation rules. -/
theorem claim8_multiple_heads :
    (∀ (app_label : String) (leaf_migrations : List String),
      2 ≤ leaf_migrations.length →
      ∃ issue, MissingMergeMigrationRule.check_graph app_label leaf_migrations
          = some issue ∧
        issue.rule_id = "SM027" ∧
        (∀ m ∈ leaf_migrations, m.data <:+: issue.message.data) ∧
        issue.migration_name = none ∧
        issue.file_path = none ∧
        issue.line_number = none) ∧
    (∀ (app_label : String) (leaf_migrations : List String),
      leaf_migrations.length ≤ 1 →
      MissingMergeMigrationRule.check_graph app_label leaf_migrations = none) ∧
    (∀ (op : Operation) (mig : Migration) (old : Option Field),
      MissingMergeMigrationRule.checkFn op mig old = none) := by
  refine ⟨?_, ?_, ?_⟩
  · intro app_label leaf_migrations h
    unfold MissingMergeMigrationRule.check_graph
    rw [if_neg (by omega)]
    refine ⟨_, rfl, rfl, ?_, rfl, rfl, rfl⟩
    intro m hm
    have hmem : m ∈ sortStrings leaf_migrations := by
      unfold sortStrings
      exact ((List.perm_insertionSort
        (fun a b => strLeb a b = true) leaf_migrations).mem_iff).mpr hm
    have hj : m.data <:+: (joinWith ", " (sortStrings leaf_migrations)).data :=
      mem_joinWith_infix ", " (sortStrings leaf_migrations) m hmem
    exact infix_data_right _ _ _ (infix_data_right _ _ _ (infix_data_left _ _ _ hj))
  · intro app_label leaf_migrations h
    unfold MissingMergeMigrationRule.check_graph
    rw [if_pos h]
  · intro op mig old
    rfl

/-- Witness for claim C8 at two concrete leaves. -/
theorem claim8_witness :
    ∃ issue,
      MissingMergeMigrationRule.check_graph "testapp" ["0002_a", "0002_b"]
          = some issue ∧
      "0002_a".data <:+: issue.message.data ∧
      "0002_b".data <:+: issue.message.data ∧
      issue.migration_name = none ∧
      MissingMergeMigrationRule.check_graph "testapp" ["0002_a"] = none := by
  obtain ⟨issue, h1, _, h3, h4, _, _⟩ :=
    claim8_multiple_heads.1 "testapp" ["0002_a", "0002_b"] (by decide)
  exact ⟨issue, h1, h3 "0002_a" (by decide), h3 "0002_b" (by decide), h4,
    claim8_multiple_heads.2.1 "testapp" ["0002_a"] (by decide)⟩

/-- C9 counterexample: DropNotNullRule (SM029) consults prior state and
does skip silently on cold start. On the same AlterField it emits an
issue when the old NOT NULL field is supplied and returns none when
prior state is absent, so a rule returning no issue solely because
prior state is absent does exist. -/
theorem claim9_counterexample :
    (DropNotNullRule.checkFn (.alterField "user" "age" fieldA_nullable) mig_empty
        (some fieldB_notnull)).isSome = true ∧
    DropNotNullRule.checkFn (.alterField "user" "age" fieldA_nullable) mig_empty none
      = none := ⟨rfl, rfl⟩

/-- C9 amended: of the rules consulting prior state, SM013, SM020 and
SM021 never skip on cold start (whenever their trigger matches and no
old field is supplied they emit an issue), SM004 falls back to its
likely-safe-by-name heuristic (emitting exactly when the heuristic does
not classify the new field as safe), but SM029 returns no issue when
prior state is absent. -/
theorem claim9_amended :
    (∀ (model col : String) (f : Field) (mig : Migration) (k : Nat),
      f.typeName = "CharField" → f.maxLength = some k →
      (AlterVarcharLengthRule.checkFn (.alterField model col f) mig none).isSome
        = true) ∧
    (∀ (model col : String) (f : Field) (mig : Migration),
      f.null = false →
      (AlterFieldNullFalseRule.checkFn (.alterField model col f) mig none).isSome
        = true) ∧
    (∀ (model col : String) (f : Field) (mig : Migration),
      f.unique = true →
      (AlterFieldUniqueRule.checkFn (.alterField model col f) mig none).isSome
        = true) ∧
    (∀ (model col : String) (f : Field) (mig : Migration),
      (AlterColumnTypeRule.checkFn (.alterField model col f) mig none = none
        ↔ AlterColumnTypeRule.is_likely_safe_change f = true)) ∧
    (∀ (model col : String) (f : Field) (mig : Migration),
      f.null = true →
      DropNotNullRule.checkFn (.alterField model col f) mig none = none) := by
  refine ⟨?_, ?_, ?_, ?_, ?_⟩
  · intro model col f mig k h1 h2
    simp [AlterVarcharLengthRule.checkFn, h1, h2]
  · intro model col f mig h1
    simp [AlterFieldNullFalseRule.checkFn, h1]
  · intro model col f mig h1
    simp [AlterFieldUniqueRule.checkFn, h1]
  · intro model col f mig
    by_cases h : AlterColumnTypeRule.is_likely_safe_change f <;>
      simp [AlterColumnTypeRule.checkFn, h]
  · intro model col f mig h1
    simp [DropNotNullRule.checkFn, h1]

/-- Witness for the amended claim C9 at concrete fields. -/
theorem claim9_amended_witness :
    (AlterVarcharLengthRule.checkFn (.alterField "user" "email" fieldB_notnull)
        mig_empty none).isSome = true ∧
    DropNotNullRule.checkFn (.alterField "user" "email" fieldA_nullable) mig_empty none
      = none :=
  ⟨claim9_amended.1 "user" "email" fieldB_notnull mig_empty 100 rfl rfl,
   claim9_amended.2.2.2.2 "user" "email" fieldA_nullable mig_empty rfl⟩

/-- C10: the enrichment frame property. The enrichment step that
analyze_migration applies to each issue returned by a rule leaves
rule_id, message, suggestion and operation unchanged, rewrites severity
only through the configured override, and assigns file_path,
line_number, app_label and migration_name exactly when the rule left
them none, returning already-set values unchanged. -/
theorem claim10_enrichment_frame :
    ∀ (cfg : Config) (fp : Option String) (ln : Option Nat)
      (al mn : Option String) (issue : Issue),
      (enrichIssue cfg fp ln al mn issue).rule_id = issue.rule_id ∧
      (enrichIssue cfg fp ln al mn issue).message = issue.message ∧
      (enrichIssue cfg fp ln al mn issue).suggestion = issue.suggestion ∧
      (enrichIssue cfg fp ln al mn issue).operation = issue.operation ∧
      (enrichIssue cfg fp ln al mn issue).severity
        = get_rule_severity cfg issue.rule_id issue.severity ∧
      (issue.file_path = none → (enrichIssue cfg fp ln al mn issue).file_path = fp) ∧
      (issue.file_path ≠ none →
        (enrichIssue cfg fp ln al mn issue).file_path = issue.file_path) ∧
      (issue.line_number = none →
        (enrichIssue cfg fp ln al mn issue).line_number = ln) ∧
      (issue.line_number ≠ none →
        (enrichIssue cfg fp ln al mn issue).line_number = issue.line_number) ∧
      (issue.app_label = none → (enrichIssue cfg fp ln al mn issue).app_label = al) ∧
      (issue.app_label ≠ none →
        (enrichIssue cfg fp ln al mn issue).app_label = issue.app_label) ∧
      (issue.migration_name = none →
        (enrichIssue cfg fp ln al mn issue).migration_name = mn) ∧
      (issue.migration_name ≠ none →
        (enrichIssue cfg fp ln al mn issue).migration_name = issue.migration_name) := by
  intro cfg fp ln al mn issue
  by_cases h1 : issue.file_path = none <;>
    by_cases h2 : issue.line_number = none <;>
      by_cases h3 : issue.app_label = none <;>
        by_cases h4 : issue.migration_name = none <;>
          simp [enrichIssue, h1, h2, h3, h4]

/-- Witness for claim C10 at a concrete issue with unset location
fields and a set app_label. -/
theorem claim10_witness :
    (enrichIssue Config.defaults (some "f.py") (some 3) (some "a") (some "0001")
        issue_ex).rule_id = issue_ex.rule_id ∧
    (enrichIssue Config.defaults (some "f.py") (some 3) (some "a") (some "0001")
        issue_ex).file_path = some "f.py" ∧
    (enrichIssue Config.defaults (some "f.py") (some 3) (some "a") (some "0001")
        issue_ex).app_label = issue_ex.app_label := by
  have h := claim10_enrichment_frame Config.defaults (some "f.py") (some 3)
    (some "a") (some "0001") issue_ex
  exact ⟨h.1, h.2.2.2.2.2.1 rfl, h.2.2.2.2.2.2.2.2.2.2.1 (by simp [issue_ex])⟩

end DSM
